import Mathlib

/-!
Shallow embedding of the layout engine of the microservice-graph visualizer
(src/frontend/src/lib/utils.ts, src/frontend/src/lib/types.ts and the
canonical Graph component), together with theorems settling the spec's
claims about it.  JavaScript numbers are idealized as real numbers; JS
`Set<string>` is modelled as `Finset String`; fields the code reads through
optional chaining (`?.`) are modelled as `Option`.
-/

namespace GraphNow

open Real

/-! Data model, from src/frontend/src/lib/types.ts. -/

/-- A 2D point, from `interface Position`. -/
structure Position where
  x : ℝ
  y : ℝ

instance : Inhabited Position := ⟨⟨0, 0⟩⟩

/-- Rectangle center, angular placement and bounding box, from
`interface RectPosition`. -/
structure RectPosition where
  x : ℝ
  y : ℝ
  angle : ℝ
  topLeft : Position
  bottomRight : Position

instance : Inhabited RectPosition := ⟨⟨0, 0, 0, default, default⟩⟩

/-- A gateway of the input graph, from `interface Gateway`.  The `type`
field is the kind discriminator (a string literal union in the source);
`outbound`/`inbound` are `Option` because the component reads them only
through `?.` (JS callers may omit them). -/
structure Gateway where
  type : String
  name : String
  outbound : Option (List String)
  inbound : Option (List String)
deriving DecidableEq

/-- The input graph, from `interface Microservice`.  `gateways` is `Option`
because the component guards with `!microservice.gateways` and `?.`. -/
structure Microservice where
  name : String
  id : String
  gateways : Option (List Gateway)
deriving DecidableEq

/-- Element role discriminator, from `ElementRef.type`. -/
inductive ElementType
  | microservice
  | gateway
  | inbound
  | outbound
deriving DecidableEq

/-- Element identification for selection/focus, from `interface ElementRef`. -/
structure ElementRef where
  type : ElementType
  name : String
deriving DecidableEq

/-- Connected-element sets for the focus feature, from
`interface ConnectedElements` (JS `Set<string>` as `Finset String`). -/
structure ConnectedElements where
  microservice : Bool
  gateways : Finset String
  inbound : Finset String
  outbound : Finset String

/-- The record `GatewayTypes = { REST: 'REST', KAFKA: 'KAFKA', SOAP: 'SOAP' }`
from types.ts. -/
structure GatewayTypesRec where
  REST : String
  KAFKA : String
  SOAP : String

def GatewayTypes : GatewayTypesRec := ⟨"REST", "KAFKA", "SOAP"⟩

/-- The values of the string-literal union
`type GatewayType = 'REST' | 'KAFKA' | 'SOAP'` from types.ts. -/
def gatewayTypeValues : List String := ["REST", "KAFKA", "SOAP"]

/-! Geometry primitives, from src/frontend/src/lib/utils.ts. -/

/-- From `distributeOnArc` in utils.ts: distribute `count` items evenly on
the arc from `startAngle` to `endAngle`. -/
noncomputable def distributeOnArc (count : ℕ) (startAngle endAngle : ℝ) : List ℝ :=
  if count = 0 then []
  else if count = 1 then [(startAngle + endAngle) / 2]
  else
    let angleStep := (endAngle - startAngle) / ((count : ℝ) - 1)
    (List.range count).map (fun i : ℕ => startAngle + (i : ℝ) * angleStep)

/-- From `getPointOnCircle` in utils.ts: polar-to-Cartesian with the 0°-up,
clockwise angle convention (the −90° offset). -/
noncomputable def getPointOnCircle (centerX centerY radius angleInDegrees : ℝ) : Position :=
  let angleInRadians := (angleInDegrees - 90) * (π / 180)
  ⟨centerX + radius * Real.cos angleInRadians,
   centerY + radius * Real.sin angleInRadians⟩

/-- JS `Math.atan2(y, x)`, written out by cases on the signs of `x` and `y`
(the zero-length case `atan2 0 0 = 0` matches JS). -/
noncomputable def atan2 (y x : ℝ) : ℝ :=
  if 0 < x then Real.arctan (y / x)
  else if x < 0 then
    (if 0 ≤ y then Real.arctan (y / x) + π else Real.arctan (y / x) - π)
  else
    (if 0 < y then π / 2 else if y < 0 then -(π / 2) else 0)

open scoped Classical in
/-- From `getRectEdgePoint` in utils.ts: the point on the boundary of the
axis-aligned rectangle centered at `(rectCenterX, rectCenterY)` in the
direction of the target, with an explicit top-center fallback when the
target coincides with the center. -/
noncomputable def getRectEdgePoint
    (rectCenterX rectCenterY rectWidth rectHeight targetX targetY : ℝ) : Position :=
  let dx := targetX - rectCenterX
  let dy := targetY - rectCenterY
  if dx = 0 ∧ dy = 0 then ⟨rectCenterX, rectCenterY - rectHeight / 2⟩
  else
    let halfWidth := rectWidth / 2
    let halfHeight := rectHeight / 2
    let angle := atan2 dy dx
    let tanAngle := Real.tan angle
    if |dx| * halfHeight > |dy| * halfWidth then
      let edgeX := if 0 < dx then halfWidth else -halfWidth
      ⟨rectCenterX + edgeX, rectCenterY + edgeX * tanAngle⟩
    else
      let edgeY := if 0 < dy then halfHeight else -halfHeight
      ⟨rectCenterX + edgeY / tanAngle, rectCenterY + edgeY⟩

/-- From `rectsCollide` in utils.ts: AABB overlap test (stated as the
negation of the four separating-strip conditions, as in the source). -/
def rectsCollide (rect1 rect2 : RectPosition) : Prop :=
  ¬(rect1.bottomRight.x < rect2.topLeft.x ∨
    rect2.bottomRight.x < rect1.topLeft.x ∨
    rect1.bottomRight.y < rect2.topLeft.y ∨
    rect2.bottomRight.y < rect1.topLeft.y)

/-! Layout constants and helpers, from the canonical Graph component. -/

/-- Constant `endpointWidth = 120` of the Graph component. -/
noncomputable def endpointWidth : ℝ := 120

/-- Constant `endpointHeight = 32` of the Graph component. -/
noncomputable def endpointHeight : ℝ := 32

/-- Constant `defaultRingGap = 90` of the Graph component. -/
noncomputable def defaultRingGap : ℝ := 90

/-- Constant `gatewayRingRadius = 140` of the Graph component. -/
noncomputable def gatewayRingRadius : ℝ := 140

/-- Ring-gap slider configuration, from `interface RingGapConfig`
(`value` is the only field the Graph component reads). -/
structure RingGapConfig where
  value : ℝ
  min : ℝ
  max : ℝ

/-- Graph component configuration, from `interface GraphConfiguration`
restricted to the layout-relevant `ringGap` field (the `colors` field only
feeds the excluded theming collaborator). -/
structure GraphConfiguration where
  ringGap : Option RingGapConfig

/-- The expression `configuration.ringGap?.value ?? defaultRingGap`. -/
noncomputable def ringGapOf (configuration : GraphConfiguration) : ℝ :=
  match configuration.ringGap with
  | some rg => rg.value
  | none => defaultRingGap

/-- The expression `gatewayRingRadius + ringGap` of the Graph component. -/
noncomputable def inboundRingRadius (configuration : GraphConfiguration) : ℝ :=
  gatewayRingRadius + ringGapOf configuration

/-- The expression `gatewayRingRadius + ringGap * 2` of the Graph component. -/
noncomputable def outboundRingRadius (configuration : GraphConfiguration) : ℝ :=
  gatewayRingRadius + ringGapOf configuration * 2

/-- The local closure `createRectPosition` of the layout `useMemo`: builds a
`RectPosition` for an endpoint rectangle of size
`endpointWidth × endpointHeight` centered at `centerPos`. -/
noncomputable def createRectPosition (centerPos : Position) (angle : ℝ) : RectPosition :=
  { x := centerPos.x
    y := centerPos.y
    angle := angle
    topLeft := ⟨centerPos.x - endpointWidth / 2, centerPos.y - endpointHeight / 2⟩
    bottomRight := ⟨centerPos.x + endpointWidth / 2, centerPos.y + endpointHeight / 2⟩ }

/-! Collision resolver, the local closure `resolveCollisions` of the layout
`useMemo`.  The JS `while (hasCollision && iterations < maxIterations)` loop
becomes a fuel recursion (`maxIterations` units of fuel, one per pass); the
in-place nested `for i / for j` sweep becomes a fold over the index pairs
`(i, j)` with `i < j`, threading the working array. -/

/-- The index pairs `(i, j)` with `i < j < n`, in the sweep order of the
nested `for` loops of `resolveCollisions`. -/
def allPairs (n : ℕ) : List (ℕ × ℕ) :=
  (List.range n).flatMap (fun i => (List.range' (i + 1) (n - (i + 1))).map (fun j => (i, j)))

open scoped Classical in
/-- The body of the inner loop of `resolveCollisions`: test the pair
`(i, j)` on the current working array; on overlap advance the later
rectangle `j` by `direction * 3` degrees along the ring and rebuild its
position and bounding box, and record that a collision was seen. -/
noncomputable def collideStep (centerX centerY ringRadius direction : ℝ)
    (st : List RectPosition × Bool) (ij : ℕ × ℕ) : List RectPosition × Bool :=
  match st, ij with
  | (resolved, hasCollision), (i, j) =>
    if rectsCollide (resolved.getD i default) (resolved.getD j default) then
      let newAngle := (resolved.getD j default).angle + direction * 3
      let newCenter := getPointOnCircle centerX centerY ringRadius newAngle
      (resolved.set j (createRectPosition newCenter newAngle), true)
    else (resolved, hasCollision)

/-- One pass of the `while` loop of `resolveCollisions`: sweep all pairs
`(i, j)` with `i < j`, returning the updated array and the `hasCollision`
flag of that pass. -/
noncomputable def collidePass (centerX centerY ringRadius direction : ℝ)
    (positions : List RectPosition) : List RectPosition × Bool :=
  (allPairs positions.length).foldl (collideStep centerX centerY ringRadius direction)
    (positions, false)

/-- The `while` loop of `resolveCollisions`, with fuel: run passes until a
pass reports no collision (second component `true`, converged) or the fuel
is exhausted (second component `false`, iteration ceiling hit). -/
noncomputable def resolveLoop (centerX centerY ringRadius direction : ℝ) :
    ℕ → List RectPosition → List RectPosition × Bool
  | 0, positions => (positions, false)
  | fuel + 1, positions =>
    let r := collidePass centerX centerY ringRadius direction positions
    if r.2 then resolveLoop centerX centerY ringRadius direction fuel r.1 else (r.1, true)

/-- Constant `maxIterations = 100` of `resolveCollisions`. -/
def maxIterations : ℕ := 100

/-- The closure `resolveCollisions` of the layout `useMemo`: sequences of
length `< 2` are returned unchanged; otherwise run up to `maxIterations`
sweeps. -/
noncomputable def resolveCollisions (centerX centerY : ℝ) (positions : List RectPosition)
    (ringRadius : ℝ) (direction : ℝ) : List RectPosition :=
  if positions.length < 2 then positions
  else (resolveLoop centerX centerY ringRadius direction maxIterations positions).1

/-! Layout engine, the layout `useMemo` of the Graph component. -/

/-- Per-gateway layout result, from `interface GatewayLayout`. -/
structure GatewayLayout where
  gateway : Gateway
  position : Position
  angle : ℝ
  outboundPositions : List RectPosition
  inboundPositions : List RectPosition

/-- Complete layout result, from `interface GraphLayout`. -/
structure GraphLayout where
  gatewayLayouts : List GatewayLayout

/-- JS `Array.prototype.map` with the element index, as used by
`gateways.map((gateway, i) => ...)`. -/
def mapWithIndex (f : ℕ → α → β) : ℕ → List α → List β
  | _, [] => []
  | i, a :: l => f i a :: mapWithIndex f (i + 1) l

/-- The body of `gateways.map((gateway, i) => ...)` in the layout `useMemo`:
place the gateway on the gateway ring at its distributed angle
(`gatewayAngles[i] || 0`), lay the inbound cluster around
`angle − 20°` and the outbound cluster around `angle + 20°` with 15° sibling
spacing, then resolve collisions per cluster (inbound direction −1,
outbound direction 1). -/
noncomputable def layoutGateway (centerX centerY inRingRadius outRingRadius : ℝ)
    (gatewayAngles : List ℝ) (i : ℕ) (gateway : Gateway) : GatewayLayout :=
  let angle := gatewayAngles.getD i 0
  let pos := getPointOnCircle centerX centerY gatewayRingRadius angle
  let inboundCount := (gateway.inbound.getD []).length
  let outboundCount := (gateway.outbound.getD []).length
  let inboundSpacing : ℝ := 15
  let outboundSpacing : ℝ := 15
  let inboundTotalSpan := max 0 (((inboundCount : ℝ) - 1) * inboundSpacing)
  let outboundTotalSpan := max 0 (((outboundCount : ℝ) - 1) * outboundSpacing)
  let inboundCenterAngle := angle - 20
  let inboundStartAngle := inboundCenterAngle - inboundTotalSpan / 2
  let outboundCenterAngle := angle + 20
  let outboundStartAngle := outboundCenterAngle - outboundTotalSpan / 2
  let inboundPositions := (List.range inboundCount).map (fun idx : ℕ =>
    let a := inboundStartAngle + (idx : ℝ) * inboundSpacing
    createRectPosition (getPointOnCircle centerX centerY inRingRadius a) a)
  let outboundPositions := (List.range outboundCount).map (fun idx : ℕ =>
    let a := outboundStartAngle + (idx : ℝ) * outboundSpacing
    createRectPosition (getPointOnCircle centerX centerY outRingRadius a) a)
  { gateway := gateway
    position := pos
    angle := angle
    outboundPositions := resolveCollisions centerX centerY outboundPositions outRingRadius 1
    inboundPositions := resolveCollisions centerX centerY inboundPositions inRingRadius (-1) }

/-- The layout `useMemo` of the Graph component: `null` when the
microservice or its `gateways` field is missing (the guard
`if (!microservice || !microservice.gateways) return null`), otherwise the
full per-gateway layout, with gateway angles
`distributeOnArc(count, 0, 360 - 360 / max(count, 1))`. -/
noncomputable def layout (microservice : Option Microservice) (width height : ℝ)
    (configuration : GraphConfiguration) : Option GraphLayout :=
  match microservice with
  | none => none
  | some ms =>
    match ms.gateways with
    | none => none
    | some gateways =>
      let centerX := width / 2
      let centerY := height / 2
      let gatewayCount := gateways.length
      let gatewayAngles := distributeOnArc gatewayCount 0
        (360 - 360 / ((max gatewayCount 1 : ℕ) : ℝ))
      some ⟨mapWithIndex
        (layoutGateway centerX centerY
          (inboundRingRadius configuration) (outboundRingRadius configuration) gatewayAngles)
        0 gateways⟩

/-! Connectivity / focus mapper, `getConnectedElements` of the Graph
component. -/

/-- JS `set.add` folded over a list (`forEach(e => set.add(e))`). -/
def insertAll (s : Finset String) (l : List String) : Finset String :=
  l.foldl (fun acc e => insert e acc) s

/-- From `getConnectedElements` of the Graph component: the elements within
one edge of the focused element (`null` when there is no focus or no
microservice data, as in the source). -/
def getConnectedElements (focused : Option ElementRef) (msData : Option Microservice) :
    Option ConnectedElements :=
  match focused, msData with
  | some f, some ms =>
    let gws := ms.gateways.getD []
    match f.type with
    | .microservice =>
      some { microservice := true
             gateways := gws.foldl (fun acc gw => insert gw.name acc) ∅
             inbound := ∅
             outbound := ∅ }
    | .gateway =>
      let base : ConnectedElements :=
        { microservice := true, gateways := {f.name}, inbound := ∅, outbound := ∅ }
      match gws.find? (fun g => g.name == f.name) with
      | some gw =>
        some { base with
               inbound := insertAll ∅ (gw.inbound.getD [])
               outbound := insertAll ∅ (gw.outbound.getD []) }
      | none => some base
    | .inbound =>
      some { microservice := false
             gateways := gws.foldl (fun acc gw =>
               if (gw.inbound.getD []).contains f.name then insert gw.name acc else acc) ∅
             inbound := {f.name}
             outbound := ∅ }
    | .outbound =>
      some { microservice := false
             gateways := gws.foldl (fun acc gw =>
               if (gw.outbound.getD []).contains f.name then insert gw.name acc else acc) ∅
             inbound := ∅
             outbound := {f.name} }
  | _, _ => none

/-! Selection / hover state, `handleClick` of the Graph component. -/

/-- The updater `prev => prev?.name === element && prev?.type === type
? null : { type, name: element }` used by `handleClick` for both the
selected and the focused state. -/
def handleClickUpdate (element : String) (ty : ElementType) (prev : Option ElementRef) :
    Option ElementRef :=
  match prev with
  | some p => if p.name = element ∧ p.type = ty then none else some ⟨ty, element⟩
  | none => some ⟨ty, element⟩

/-- The `handleClick` callback of the Graph component, acting on the pair
(selectedElement, focusedElement). -/
def handleClick (element : String) (ty : ElementType)
    (st : Option ElementRef × Option ElementRef) : Option ElementRef × Option ElementRef :=
  (handleClickUpdate element ty st.1, handleClickUpdate element ty st.2)

/-! Sample inputs used by witness theorems. -/

/-- Sample gateway with inbound `["A","B"]` and outbound `["C"]`. -/
def sampleGatewayG : Gateway := ⟨"REST", "G", some ["C"], some ["A", "B"]⟩

/-- Sample microservice holding `sampleGatewayG`. -/
def sampleMsG : Microservice := ⟨"Root", "ms1", some [sampleGatewayG]⟩

/-! Helper lemmas about the set-building folds of `getConnectedElements`. -/

lemma mem_insertAll {x : String} {l : List String} {s : Finset String} :
    x ∈ insertAll s l ↔ x ∈ l ∨ x ∈ s := by
  induction l generalizing s with
  | nil => simp [insertAll]
  | cons a l ih =>
    show x ∈ insertAll (insert a s) l ↔ _
    rw [ih]
    simp [Finset.mem_insert, or_assoc, or_comm, or_left_comm]

lemma mem_foldl_insert_if {p : Gateway → Bool} {x : String} {l : List Gateway}
    {s : Finset String} :
    x ∈ l.foldl (fun acc gw => if p gw then insert gw.name acc else acc) s ↔
      (∃ gw ∈ l, p gw ∧ gw.name = x) ∨ x ∈ s := by
  induction l generalizing s with
  | nil => simp
  | cons a l ih =>
    simp only [List.foldl_cons]
    by_cases h : p a
    · simp only [h, if_true, ih, Finset.mem_insert]
      constructor
      · rintro (⟨gw, hgw, hp, hx⟩ | hx | hx)
        · exact Or.inl ⟨gw, List.mem_cons_of_mem _ hgw, hp, hx⟩
        · exact Or.inl ⟨a, List.mem_cons_self _ _, h, hx.symm⟩
        · exact Or.inr hx
      · rintro (⟨gw, hgw, hp, hx⟩ | hx)
        · rcases List.mem_cons.1 hgw with rfl | hgw
          · exact Or.inr (Or.inl hx.symm)
          · exact Or.inl ⟨gw, hgw, hp, hx⟩
        · exact Or.inr (Or.inr hx)
    · simp only [h, if_false, ih]
      constructor
      · rintro (⟨gw, hgw, hp, hx⟩ | hx)
        · exact Or.inl ⟨gw, List.mem_cons_of_mem _ hgw, hp, hx⟩
        · exact Or.inr hx
      · rintro (⟨gw, hgw, hp, hx⟩ | hx)
        · rcases List.mem_cons.1 hgw with rfl | hgw
          · exact absurd hp (by simp [h])
          · exact Or.inl ⟨gw, hgw, hp, hx⟩
        · exact Or.inr hx

/-! Claim theorems. -/

/-- C4: focusing a gateway G connects the root, G itself, exactly G's
inbound and outbound endpoint names, and no other gateway. -/
theorem focus_gateway_connected (ms : Microservice) (G : Gateway)
    (hfind : (ms.gateways.getD []).find? (fun g => g.name == G.name) = some G) :
    ∃ c, getConnectedElements (some ⟨.gateway, G.name⟩) (some ms) = some c ∧
      c.microservice = true ∧
      c.gateways = {G.name} ∧
      (∀ x, x ∈ c.inbound ↔ x ∈ G.inbound.getD []) ∧
      (∀ x, x ∈ c.outbound ↔ x ∈ G.outbound.getD []) := by
  have hmain : getConnectedElements (some ⟨.gateway, G.name⟩) (some ms) =
      some { microservice := true, gateways := {G.name},
             inbound := insertAll ∅ (G.inbound.getD []),
             outbound := insertAll ∅ (G.outbound.getD []) } := by
    simp only [getConnectedElements]
    rw [hfind]
  exact ⟨_, hmain, rfl, rfl, fun x => by simp [mem_insertAll],
    fun x => by simp [mem_insertAll]⟩

/-- C4 witness: the theorem instantiated at a gateway with inbound
`["A","B"]` and outbound `["C"]`. -/
theorem focus_gateway_connected_witness :
    ((sampleMsG.gateways.getD []).find? (fun g => g.name == sampleGatewayG.name) =
      some sampleGatewayG) ∧
    (∃ c, getConnectedElements (some ⟨.gateway, sampleGatewayG.name⟩) (some sampleMsG) =
        some c ∧
      c.microservice = true ∧
      c.gateways = {sampleGatewayG.name} ∧
      (∀ x, x ∈ c.inbound ↔ x ∈ sampleGatewayG.inbound.getD []) ∧
      (∀ x, x ∈ c.outbound ↔ x ∈ sampleGatewayG.outbound.getD [])) :=
  ⟨by decide, focus_gateway_connected sampleMsG sampleGatewayG (by decide)⟩

/-- C5: focusing an inbound endpoint E connects E and exactly the gateways
whose inbound list contains E; the root stays unconnected. -/
theorem focus_inbound_connected (ms : Microservice) (E : String) :
    ∃ c, getConnectedElements (some ⟨.inbound, E⟩) (some ms) = some c ∧
      c.microservice = false ∧
      c.inbound = {E} ∧
      c.outbound = ∅ ∧
      (∀ x, x ∈ c.gateways ↔
        ∃ gw ∈ ms.gateways.getD [], E ∈ gw.inbound.getD [] ∧ gw.name = x) := by
  refine ⟨_, rfl, rfl, rfl, rfl, fun x => ?_⟩
  rw [mem_foldl_insert_if]
  simp [List.contains, List.elem_iff]

/-- C6: distributeOnArc returns exactly `count` angles; the arc midpoint for
`count = 1`; and the exact interval ends first and last for `count ≥ 2`. -/
theorem distributeOnArc_spec (count : ℕ) (a b : ℝ) :
    (distributeOnArc count a b).length = count ∧
    (count = 1 → distributeOnArc count a b = [(a + b) / 2]) ∧
    (2 ≤ count → (distributeOnArc count a b).head? = some a ∧
      (distributeOnArc count a b).getLast? = some b) := by
  refine ⟨?_, ?_, ?_⟩
  · unfold distributeOnArc
    split
    · simp [*]
    · split
      · simp [*]
      · simp
  · intro h
    subst h
    simp [distributeOnArc]
  · intro h
    have h0 : ¬count = 0 := by omega
    have h1 : ¬count = 1 := by omega
    obtain ⟨n, rfl⟩ : ∃ n, count = n + 1 := ⟨count - 1, by omega⟩
    have hn : 1 ≤ n := by omega
    have hne : ((n : ℝ)) ≠ 0 := by
      exact_mod_cast Nat.one_le_iff_ne_zero.1 hn
    unfold distributeOnArc
    rw [if_neg h0, if_neg h1]
    constructor
    · rw [List.range_succ_eq_map]
      simp
    · rw [List.range_succ, List.map_append]
      rw [List.getLast?_append]
      simp only [List.map_cons, List.map_nil, List.getLast?_singleton]
      push_cast
      field_simp

/-- C6 witness: the spec theorem instantiated at counts 3 and 1 on the arc
from 0 to 90. -/
theorem distributeOnArc_spec_witness :
    (distributeOnArc 3 (0 : ℝ) 90).length = 3 ∧
    distributeOnArc 1 (0 : ℝ) 90 = [45] ∧
    (distributeOnArc 3 (0 : ℝ) 90).head? = some 0 ∧
    (distributeOnArc 3 (0 : ℝ) 90).getLast? = some 90 := by
  have h3 := distributeOnArc_spec 3 (0 : ℝ) 90
  have h1 := distributeOnArc_spec 1 (0 : ℝ) 90
  refine ⟨h3.1, ?_, (h3.2.2 (by norm_num)).1, (h3.2.2 (by norm_num)).2⟩
  rw [h1.2.1 rfl]
  norm_num

/-- C8 counterexample: clicking an element twice starting from the state in
which it is already selected and focused ends re-selected, not unselected. -/
theorem handleClick_double_click_cex :
    handleClick "G" .gateway (handleClick "G" .gateway
      (some ⟨.gateway, "G"⟩, some ⟨.gateway, "G"⟩)) =
      (some ⟨.gateway, "G"⟩, some ⟨.gateway, "G"⟩) ∧
    (some (⟨.gateway, "G"⟩ : ElementRef), some (⟨.gateway, "G"⟩ : ElementRef)) ≠
      ((none : Option ElementRef), (none : Option ElementRef)) := by
  refine ⟨?_, by simp⟩
  decide

/-- C8 amended: starting from any state in which the element is not the
selected one and not the focused one, two clicks return to the unselected
state; one click on the already-selected element clears both. -/
theorem handleClick_toggle (e : String) (ty : ElementType) (sel foc : Option ElementRef)
    (hs : sel ≠ some ⟨ty, e⟩) (hf : foc ≠ some ⟨ty, e⟩) :
    handleClick e ty (handleClick e ty (sel, foc)) = (none, none) ∧
    handleClick e ty (some ⟨ty, e⟩, some ⟨ty, e⟩) = (none, none) := by
  have key : ∀ prev : Option ElementRef, prev ≠ some ⟨ty, e⟩ →
      handleClickUpdate e ty prev = some ⟨ty, e⟩ := by
    intro prev hp
    match prev with
    | none => rfl
    | some p =>
      have hc : ¬(p.name = e ∧ p.type = ty) := by
        rintro ⟨h1, h2⟩
        apply hp
        cases p
        simp_all
      simp [handleClickUpdate, hc]
  have clear : handleClickUpdate e ty (some ⟨ty, e⟩) = none := by
    simp [handleClickUpdate]
  refine ⟨?_, by simp [handleClick, clear]⟩
  simp [handleClick, key sel hs, key foc hf, clear]

/-- C8 witness: the amended theorem applied from the fully unselected
state. -/
theorem handleClick_toggle_witness :
    handleClick "G" .gateway (handleClick "G" .gateway (none, none)) = (none, none) ∧
    handleClick "G" .gateway (some ⟨.gateway, "G"⟩, some ⟨.gateway, "G"⟩) =
      (none, none) :=
  handleClick_toggle "G" .gateway none none (by simp) (by simp)

/-- C9 counterexample: the program defines the gateway kind KAFKA, which is
not in the claimed set of kinds REST, EVENT_STREAM, SOAP. -/
theorem gatewayTypes_kafka_cex :
    GatewayTypes.KAFKA ∈ gatewayTypeValues ∧
    GatewayTypes.KAFKA ∉ (["REST", "EVENT_STREAM", "SOAP"] : List String) := by
  decide

/-- C9 amended: the gateway kind discriminator ranges over exactly
REST, KAFKA and SOAP, and the GatewayTypes record lists those values. -/
theorem gatewayTypeValues_spec :
    (∀ k, k ∈ gatewayTypeValues ↔ k = "REST" ∨ k = "KAFKA" ∨ k = "SOAP") ∧
    GatewayTypes.REST ∈ gatewayTypeValues ∧
    GatewayTypes.KAFKA ∈ gatewayTypeValues ∧
    GatewayTypes.SOAP ∈ gatewayTypeValues := by
  refine ⟨fun k => ?_, by decide, by decide, by decide⟩
  simp [gatewayTypeValues]

/-- C7: getRectEdgePoint returns the top-center point for a target directly
above the center, the right-center point for a target directly to the
right, and the top-center point as the explicit fallback when the target
equals the center. -/
theorem getRectEdgePoint_spec (cx cy w h d : ℝ) (hw : 0 < w) (hh : 0 < h) (hd : 0 < d) :
    getRectEdgePoint cx cy w h cx (cy - d) = ⟨cx, cy - h / 2⟩ ∧
    getRectEdgePoint cx cy w h (cx + d) cy = ⟨cx + w / 2, cy⟩ ∧
    getRectEdgePoint cx cy w h cx cy = ⟨cx, cy - h / 2⟩ := by
  refine ⟨?_, ?_, ?_⟩
  · simp only [getRectEdgePoint]
    rw [sub_self, show cy - d - cy = -d by ring]
    rw [if_neg (by
      rintro ⟨-, hdz⟩
      exact absurd (neg_eq_zero.1 hdz) hd.ne')]
    rw [if_neg (by
      rw [abs_zero, abs_neg, abs_of_pos hd, zero_mul]
      exact not_lt.2 (by positivity))]
    rw [if_neg (by
      rw [not_lt, neg_nonpos]
      exact hd.le)]
    have hatan : atan2 (-d) 0 = -(π / 2) := by
      unfold atan2
      rw [if_neg (lt_irrefl 0), if_neg (lt_irrefl 0), if_neg (by
        rw [not_lt, neg_nonpos]
        exact hd.le), if_pos (neg_neg_iff_pos.2 hd)]
    rw [hatan, show Real.tan (-(π / 2)) = 0 by
      rw [Real.tan_neg, Real.tan_pi_div_two, neg_zero]]
    rw [div_zero]
    simp only [Position.mk.injEq]
    constructor <;> ring
  · simp only [getRectEdgePoint]
    rw [show cx + d - cx = d by ring, sub_self]
    rw [if_neg (by
      rintro ⟨hdz, -⟩
      exact absurd hdz hd.ne')]
    rw [if_pos (by
      rw [abs_zero, abs_of_pos hd, zero_mul]
      positivity)]
    rw [if_pos hd]
    have hatan : atan2 0 d = 0 := by
      unfold atan2
      rw [if_pos hd, zero_div, Real.arctan_zero]
    rw [hatan, Real.tan_zero, mul_zero, add_zero]
  · simp only [getRectEdgePoint]
    rw [if_pos ⟨sub_self cx, sub_self cy⟩]

/-- C7 witness: the theorem at the unit square scaled to 2×4 with target
offset 1. -/
theorem getRectEdgePoint_spec_witness :
    getRectEdgePoint 0 0 2 4 0 (0 - 1) = ⟨0, 0 - 4 / 2⟩ ∧
    getRectEdgePoint 0 0 2 4 (0 + 1) 0 = ⟨0 + 2 / 2, 0⟩ ∧
    getRectEdgePoint 0 0 2 4 0 0 = ⟨0, 0 - 4 / 2⟩ :=
  getRectEdgePoint_spec 0 0 2 4 1 (by norm_num) (by norm_num) (by norm_num)

/-! Claims C1 and C10, about the collision resolver. -/

/-- Absence of pairwise AABB overlap in a sequence of rectangles. -/
def NoOverlaps (ps : List RectPosition) : Prop :=
  ∀ i j, i < j → j < ps.length → ¬ rectsCollide (ps.getD i default) (ps.getD j default)

lemma mem_allPairs {n i j : ℕ} : (i, j) ∈ allPairs n ↔ i < j ∧ j < n := by
  simp only [allPairs, List.mem_flatMap, List.mem_map, List.mem_range, List.mem_range'_1,
    Prod.mk.injEq]
  constructor
  · rintro ⟨a, ha, b, ⟨hb1, hb2⟩, rfl, rfl⟩
    omega
  · rintro ⟨hij, hjn⟩
    exact ⟨i, by omega, j, ⟨by omega, by omega⟩, rfl, rfl⟩

lemma snd_pos_of_mem_allPairs {n : ℕ} {p : ℕ × ℕ} (hp : p ∈ allPairs n) : p.2 ≠ 0 := by
  obtain ⟨i, j⟩ := p
  have := mem_allPairs.1 hp
  omega

lemma collideStep_flag_mono (cx cy r d : ℝ) (st : List RectPosition × Bool) (ij : ℕ × ℕ)
    (h : st.2 = true) : (collideStep cx cy r d st ij).2 = true := by
  obtain ⟨ps, b⟩ := st
  obtain ⟨i, j⟩ := ij
  simp only [collideStep]
  split
  · rfl
  · exact h

lemma foldl_collideStep_flag_mono (cx cy r d : ℝ) (l : List (ℕ × ℕ))
    (st : List RectPosition × Bool) (h : st.2 = true) :
    (l.foldl (collideStep cx cy r d) st).2 = true := by
  induction l generalizing st with
  | nil => exact h
  | cons a l ih => exact ih _ (collideStep_flag_mono cx cy r d st a h)

lemma foldl_collideStep_false (cx cy r d : ℝ) (l : List (ℕ × ℕ)) (ps : List RectPosition)
    (h : (l.foldl (collideStep cx cy r d) (ps, false)).2 = false) :
    (l.foldl (collideStep cx cy r d) (ps, false)).1 = ps ∧
      ∀ ij ∈ l, ¬ rectsCollide (ps.getD ij.1 default) (ps.getD ij.2 default) := by
  induction l with
  | nil => exact ⟨rfl, by simp⟩
  | cons a l ih =>
    rw [List.foldl_cons] at h ⊢
    obtain ⟨i, j⟩ := a
    by_cases hc : rectsCollide (ps.getD i default) (ps.getD j default)
    · exfalso
      have hstep : (collideStep cx cy r d (ps, false) (i, j)).2 = true := by
        simp only [collideStep]
        rw [if_pos hc]
      rw [foldl_collideStep_flag_mono cx cy r d l _ hstep] at h
      simp at h
    · have hstep : collideStep cx cy r d (ps, false) (i, j) = (ps, false) := by
        simp only [collideStep]
        rw [if_neg hc]
      rw [hstep] at h ⊢
      obtain ⟨h1, h2⟩ := ih h
      refine ⟨h1, fun ij hij => ?_⟩
      rcases List.mem_cons.1 hij with rfl | hij
      · exact hc
      · exact h2 ij hij

lemma collidePass_false (cx cy r d : ℝ) (ps : List RectPosition)
    (h : (collidePass cx cy r d ps).2 = false) :
    (collidePass cx cy r d ps).1 = ps ∧ NoOverlaps ps := by
  unfold collidePass at h ⊢
  obtain ⟨h1, h2⟩ := foldl_collideStep_false cx cy r d (allPairs ps.length) ps h
  exact ⟨h1, fun i j hij hj => h2 (i, j) (mem_allPairs.2 ⟨hij, hj⟩)⟩

lemma resolveLoop_true (cx cy r d : ℝ) :
    ∀ (fuel : ℕ) (ps : List RectPosition), (resolveLoop cx cy r d fuel ps).2 = true →
      NoOverlaps (resolveLoop cx cy r d fuel ps).1 := by
  intro fuel
  induction fuel with
  | zero =>
    intro ps h
    exact absurd h (by simp [resolveLoop])
  | succ n ih =>
    intro ps h
    simp only [resolveLoop] at h ⊢
    by_cases hc : (collidePass cx cy r d ps).2 = true
    · rw [if_pos hc] at h ⊢
      exact ih _ h
    · rw [if_neg hc] at h ⊢
      obtain ⟨h1, h2⟩ := collidePass_false cx cy r d ps (by simpa using hc)
      simpa [h1] using h2

/-- C1: after the collision resolver returns, either no pair of returned
rectangles overlaps under the AABB test, or the fixed ceiling of
`maxIterations` passes was exhausted (the loop's flag reports `false`). -/
theorem resolveCollisions_no_overlap_or_ceiling (cx cy r d : ℝ) (ps : List RectPosition) :
    NoOverlaps (resolveCollisions cx cy ps r d) ∨
      (resolveLoop cx cy r d maxIterations ps).2 = false := by
  unfold resolveCollisions
  split
  case isTrue hlen =>
    left
    intro i j hij hj
    exact absurd (hij.trans hj) (by omega)
  case isFalse hlen =>
    rcases h : (resolveLoop cx cy r d maxIterations ps).2 with _ | _
    · exact Or.inr rfl
    · exact Or.inl (resolveLoop_true cx cy r d maxIterations ps h)

lemma head?_set {l : List RectPosition} {j : ℕ} {v : RectPosition} (hj : j ≠ 0) :
    (l.set j v).head? = l.head? := by
  cases l with
  | nil => rfl
  | cons a t =>
    cases j with
    | zero => exact absurd rfl hj
    | succ k => rfl

lemma foldl_collideStep_head (cx cy r d : ℝ) (l : List (ℕ × ℕ))
    (st : List RectPosition × Bool) (hl : ∀ ij ∈ l, ij.2 ≠ 0) :
    ((l.foldl (collideStep cx cy r d) st).1).head? = st.1.head? := by
  induction l generalizing st with
  | nil => rfl
  | cons a l ih =>
    rw [List.foldl_cons, ih _ (fun ij h => hl ij (List.mem_cons_of_mem _ h))]
    obtain ⟨ps, b⟩ := st
    obtain ⟨i, j⟩ := a
    simp only [collideStep]
    split
    · exact head?_set (hl (i, j) (List.mem_cons_self _ _))
    · rfl

lemma collidePass_head (cx cy r d : ℝ) (ps : List RectPosition) :
    ((collidePass cx cy r d ps).1).head? = ps.head? := by
  unfold collidePass
  exact foldl_collideStep_head cx cy r d _ _ (fun ij h => snd_pos_of_mem_allPairs h)

lemma resolveLoop_head (cx cy r d : ℝ) :
    ∀ (fuel : ℕ) (ps : List RectPosition),
      ((resolveLoop cx cy r d fuel ps).1).head? = ps.head? := by
  intro fuel
  induction fuel with
  | zero => intro ps; rfl
  | succ n ih =>
    intro ps
    simp only [resolveLoop]
    by_cases hc : (collidePass cx cy r d ps).2 = true
    · rw [if_pos hc, ih, collidePass_head]
    · rw [if_neg hc]
      exact collidePass_head cx cy r d ps

/-- C10: the collision resolver never repositions the rectangle at index 0;
the first element of the returned sequence is the first element of the
input. -/
theorem resolveCollisions_preserves_first (cx cy r d : ℝ) (ps : List RectPosition) :
    (resolveCollisions cx cy ps r d).head? = ps.head? := by
  unfold resolveCollisions
  split
  · rfl
  · exact resolveLoop_head cx cy r d maxIterations ps

/-! Claims C2 and C3, about the layout engine. -/

/-- A microservice whose gateway list is present but empty. -/
def emptyGatewaysMs : Microservice := ⟨"OrderService", "ms1", some []⟩

/-- The default configuration `{}` of the Graph component (no ringGap). -/
def defaultConfiguration : GraphConfiguration := ⟨none⟩

/-- C2 counterexample: with an empty (but present) gateway list the layout
engine does NOT return the "no layout" result; it returns a layout with an
empty gateway list, because the guard `!microservice.gateways` is false for
an empty array. -/
theorem layout_empty_gateways_cex :
    emptyGatewaysMs.gateways = some [] ∧
    layout (some emptyGatewaysMs) 800 800 defaultConfiguration ≠ none := by
  refine ⟨rfl, ?_⟩
  simp [layout, emptyGatewaysMs, mapWithIndex]

/-- C2 amended: the layout engine returns the explicit "no layout" result
exactly when the graph is missing or its `gateways` field is missing —
an empty gateway list still yields a (trivial) layout. -/
theorem layout_none_iff (ms : Option Microservice) (w h : ℝ) (cfg : GraphConfiguration) :
    layout ms w h cfg = none ↔ ms = none ∨ ∃ m, ms = some m ∧ m.gateways = none := by
  cases ms with
  | none => simp [layout]
  | some m =>
    cases hg : m.gateways with
    | none => simp [layout, hg]
    | some gws => simp [layout, hg]

/-- The concrete gateway of the spec's scenario: kind REST, name PaymentGW,
inbound `["CreateOrder"]`, outbound `["ChargeCard","RefundCard"]`. -/
def sampleGateway : Gateway :=
  ⟨"REST", "PaymentGW", some ["ChargeCard", "RefundCard"], some ["CreateOrder"]⟩

/-- The concrete microservice of the spec's scenario. -/
def sampleMicroservice : Microservice := ⟨"OrderService", "ms1", some [sampleGateway]⟩

/-- C3: for the concrete one-gateway scenario on an 800×800 canvas with the
default ring gap, the ring radii are 140/230/320, the single gateway sits
at angle 0° and the single inbound endpoint is centered at angle −20°. -/
theorem layout_concrete_scenario :
    gatewayRingRadius = 140 ∧
    inboundRingRadius defaultConfiguration = 230 ∧
    outboundRingRadius defaultConfiguration = 320 ∧
    ∃ gl, layout (some sampleMicroservice) 800 800 defaultConfiguration = some gl ∧
      ∃ g, gl.gatewayLayouts = [g] ∧ g.angle = 0 ∧
        g.inboundPositions.map RectPosition.angle = [-20] := by
  have hangles : distributeOnArc 1 0 ((360 : ℝ) - 360 / ((max (1 : ℕ) 1 : ℕ) : ℝ)) = [0] := by
    norm_num [distributeOnArc]
  have hlay : layout (some sampleMicroservice) 800 800 defaultConfiguration =
      some ⟨[layoutGateway (800 / 2) (800 / 2) (inboundRingRadius defaultConfiguration)
        (outboundRingRadius defaultConfiguration) [0] 0 sampleGateway]⟩ := by
    simp only [layout, sampleMicroservice, List.length_cons, List.length_nil, mapWithIndex,
      hangles]
  have hangle : (layoutGateway (800 / 2) (800 / 2) (inboundRingRadius defaultConfiguration)
      (outboundRingRadius defaultConfiguration) [0] 0 sampleGateway).angle = 0 := by
    simp [layoutGateway]
  have hin : (layoutGateway (800 / 2) (800 / 2) (inboundRingRadius defaultConfiguration)
      (outboundRingRadius defaultConfiguration) [0] 0 sampleGateway).inboundPositions.map
        RectPosition.angle = [-20] := by
    simp only [layoutGateway, sampleGateway]
    norm_num [resolveCollisions, createRectPosition, List.range_succ, List.range_zero, Function.comp]
  refine ⟨rfl, ?_, ?_, _, hlay, _, rfl, hangle, hin⟩
  · norm_num [inboundRingRadius, gatewayRingRadius, ringGapOf, defaultConfiguration,
      defaultRingGap]
  · norm_num [outboundRingRadius, gatewayRingRadius, ringGapOf, defaultConfiguration,
      defaultRingGap]

end GraphNow
